import Mathlib

/-!
Shallow embedding of the reddit-mcp repository's verifiable surface.

Part 1: the database-agnostic query-building / EXPLAIN-normalization layer
(`QueryBuilder` / `ExplainResultParser`).  The TypeScript module
`src/utils/query-builder.ts` is absent from the shipped sources (only its
unit tests, `tests/query-builder.test.ts`, are present), so these
definitions are modelled from the specification's description of that
module.  Database type tags are `String`s, as in the TypeScript, and a
thrown error is modelled as `Except.error` carrying the error message.

Part 2: the Reddit MCP server plumbing that does ship in source form —
rate-limit retry in the Reddit client, the MCP tool dispatcher, CLI
argument handling, and the listing-limit clamp.
-/

/-- Modelled from the spec: the identifier-escaping core of the missing
`QueryBuilder.escapeIdentifier` — every occurrence of the dialect quote
character `q` in the character list is doubled, other characters are kept. -/
def doubleChar (q : Char) : List Char → List Char
  | [] => []
  | c :: rest => if c = q then q :: q :: doubleChar q rest else c :: doubleChar q rest

/-- Modelled from the spec: wrap an identifier in the dialect quote
character `q`, doubling embedded occurrences of `q`. -/
def escapeWith (q : Char) (identifier : String) : String :=
  ⟨q :: (doubleChar q identifier.data ++ [q])⟩

/-- Modelled from the spec: `QueryBuilder.escapeIdentifier(type, identifier)`
(source file `src/utils/query-builder.ts` missing; only its tests ship).
postgresql/sqlite/snowflake quote with a double-quote, mysql with a
backtick; any other tag throws. -/
def escapeIdentifier (dbType identifier : String) : Except String String :=
  match dbType with
  | "postgresql" => .ok (escapeWith '"' identifier)
  | "sqlite" => .ok (escapeWith '"' identifier)
  | "snowflake" => .ok (escapeWith '"' identifier)
  | "mysql" => .ok (escapeWith '`' identifier)
  | _ => .error "Unsupported database type for identifier escaping"

/-- Modelled from the spec: `QueryBuilder.buildExplainQuery(type, query, analyze)`
(source file missing).  Dialect-specific EXPLAIN prefixes; the analyze flag
changes the prefix for postgresql and mysql only. -/
def buildExplainQuery (dbType query : String) (analyze : Bool) : Except String String :=
  match dbType with
  | "postgresql" =>
      .ok ((if analyze then "EXPLAIN (ANALYZE, FORMAT JSON) " else "EXPLAIN (FORMAT JSON) ") ++ query)
  | "mysql" =>
      .ok ((if analyze then "EXPLAIN ANALYZE " else "EXPLAIN FORMAT=JSON ") ++ query)
  | "sqlite" => .ok ("EXPLAIN QUERY PLAN " ++ query)
  | "snowflake" => .ok ("EXPLAIN " ++ query)
  | _ => .error "Unsupported database type for EXPLAIN"

/-- Modelled from the spec: `QueryBuilder.buildColumnStatsQuery(type, table, column)`
(source file missing).  Single-row aggregate over total / non-null /
distinct counts, identifiers escaped via `escapeIdentifier`, with a
dialect-specific cast-to-text; identifier errors are delegated. -/
def buildColumnStatsQuery (dbType table column : String) : Except String String := do
  let t ← escapeIdentifier dbType table
  let c ← escapeIdentifier dbType column
  match dbType with
  | "postgresql" =>
      .ok ("SELECT COUNT(*)::text as total_count, COUNT(" ++ c ++ ")::text as non_null_count, COUNT(DISTINCT " ++ c ++ ")::text as distinct_count FROM " ++ t)
  | "mysql" =>
      .ok ("SELECT CAST(COUNT(*) AS CHAR) as total_count, CAST(COUNT(" ++ c ++ ") AS CHAR) as non_null_count, CAST(COUNT(DISTINCT " ++ c ++ ") AS CHAR) as distinct_count FROM " ++ t)
  | "snowflake" =>
      .ok ("SELECT TO_VARCHAR(COUNT(*)) as total_count, TO_VARCHAR(COUNT(" ++ c ++ ")) as non_null_count, TO_VARCHAR(COUNT(DISTINCT " ++ c ++ ")) as distinct_count FROM " ++ t)
  | "sqlite" =>
      .ok ("SELECT COUNT(*) as total_count, COUNT(" ++ c ++ ") as non_null_count, COUNT(DISTINCT " ++ c ++ ") as distinct_count FROM " ++ t)
  | _ => .error "Unsupported database type for EXPLAIN"

/-- Modelled from the spec: `QueryBuilder.buildMostCommonValuesQuery(type, table, column, limit = 10)`
(source file missing).  `limit` defaults to 10 when omitted or falsy; a
falsy (zero) limit is modelled by `limit = 0`. -/
def buildMostCommonValuesQuery (dbType table column : String) (limit : Nat) : Except String String := do
  let t ← escapeIdentifier dbType table
  let c ← escapeIdentifier dbType column
  let effLimit := if limit = 0 then 10 else limit
  .ok ("SELECT " ++ c ++ ", COUNT(*) as frequency FROM " ++ t ++ " GROUP BY " ++ c ++ " ORDER BY frequency DESC LIMIT " ++ toString effLimit)

/-- Modelled from the spec: `QueryBuilder.buildTableFilter(type, tableName, paramIndex = 1)`
(source file missing).  postgresql uses a numbered placeholder,
mysql/snowflake a positional `?` (paramIndex ignored), sqlite filters on
the `name` catalog column. -/
def buildTableFilter (dbType tableName : String) (paramIndex : Nat) : Except String String :=
  match dbType with
  | "postgresql" => .ok ("table_name = $" ++ toString paramIndex)
  | "mysql" => .ok "table_name = ?"
  | "snowflake" => .ok "table_name = ?"
  | "sqlite" => .ok "name = ?"
  | _ => .error "Unsupported database type for table filter"

/-- JSON-like values: the shapes that flow through `JSON.parse` and the
EXPLAIN row objects.  Numbers are modelled as integers (every EXPLAIN
fixture in the repository uses integral numbers). -/
inductive JsonVal where
  | obj (pairs : List (String × JsonVal))
  | arr (elements : List JsonVal)
  | str (value : String)
  | num (value : Int)
  | bool (value : Bool)
  | null

/-- A driver-returned result row: a plain key-value object. -/
abbrev ExplainRow := List (String × JsonVal)

/-- The opening-brace character, written via its code point. -/
def lbrace : Char := Char.ofNat 123

/-- The closing-brace character, written via its code point. -/
def rbrace : Char := Char.ofNat 125

/-- Skip JSON whitespace (space, tab, carriage return, newline — the same
set as `Char.isWhitespace`). -/
def skipWs (input : List Char) : List Char :=
  match input with
  | c :: rest => if c.isWhitespace then skipWs rest else input
  | [] => []

/-- The JSON escape table: escape letter paired with the decoded
character. -/
def escapeTable : List (Char × Char) :=
  [('"', '"'), ('\\', '\\'), ('/', '/'), ('n', Char.ofNat 10), ('t', Char.ofNat 9),
   ('r', Char.ofNat 13), ('b', Char.ofNat 8), ('f', Char.ofNat 12)]

/-- Decode a JSON string escape character via the escape table. -/
def escChar (e : Char) : Option Char := escapeTable.lookup e

/-- Consume a JSON string body up to the closing quote, decoding simple
escapes; returns the decoded string and the remaining input. -/
def parseStringRest (acc : List Char) : List Char → Option (String × List Char)
  | [] => none
  | c :: rest =>
      if c = '"' then some (⟨acc.reverse⟩, rest)
      else if c = '\\' then
        match rest with
        | [] => none
        | e :: rest2 =>
            match escChar e with
            | some d => parseStringRest (d :: acc) rest2
            | none => none
      else parseStringRest (c :: acc) rest

/-- Consume leading decimal digits. -/
def parseDigits (acc : Nat) : List Char → Nat × List Char
  | [] => (acc, [])
  | c :: rest =>
      if c.isDigit then parseDigits (acc * 10 + (c.toNat - '0'.toNat)) rest
      else (acc, c :: rest)

/-- Parse an (integral) JSON number. -/
def parseNum : List Char → Option (Int × List Char)
  | '-' :: c :: rest =>
      if c.isDigit then
        let p := parseDigits (c.toNat - '0'.toNat) rest
        some (-(Int.ofNat p.1), p.2)
      else none
  | c :: rest =>
      if c.isDigit then
        let p := parseDigits (c.toNat - '0'.toNat) rest
        some (Int.ofNat p.1, p.2)
      else none
  | [] => none

mutual

/-- Fuel-bounded recursive-descent parse of one JSON value, modelling
`JSON.parse` of the missing `query-builder.ts` (restricted to integral
numbers and simple string escapes). -/
def parseVal : Nat → List Char → Option (JsonVal × List Char)
  | 0, _ => none
  | fuel+1, input =>
    match skipWs input with
    | [] => none
    | c :: rest =>
        if c = lbrace then parseObjFields fuel (skipWs rest) []
        else if c = '[' then parseArrItems fuel (skipWs rest) []
        else if c = '"' then
          match parseStringRest [] rest with
          | some (s, r) => some (JsonVal.str s, r)
          | none => none
        else if c = 't' then
          if rest.take 3 = ['r', 'u', 'e'] then some (JsonVal.bool true, rest.drop 3) else none
        else if c = 'f' then
          if rest.take 4 = ['a', 'l', 's', 'e'] then some (JsonVal.bool false, rest.drop 4)
          else none
        else if c = 'n' then
          if rest.take 3 = ['u', 'l', 'l'] then some (JsonVal.null, rest.drop 3) else none
        else if c = '-' ∨ c.isDigit then
          match parseNum (c :: rest) with
          | some (n, r) => some (JsonVal.num n, r)
          | none => none
        else none

/-- Fuel-bounded parse of the members of a JSON object (position: just
after the opening brace or a separating comma, whitespace skipped). -/
def parseObjFields : Nat → List Char → List (String × JsonVal) → Option (JsonVal × List Char)
  | 0, _, _ => none
  | fuel+1, input, acc =>
    match input with
    | [] => none
    | c :: rest =>
        if c = rbrace then some (JsonVal.obj acc.reverse, rest)
        else if c = '"' then
          match parseStringRest [] rest with
          | some (k, r1) =>
              match skipWs r1 with
              | ':' :: r2 =>
                  match parseVal fuel r2 with
                  | some (v, r3) =>
                      match skipWs r3 with
                      | ',' :: r4 => parseObjFields fuel (skipWs r4) ((k, v) :: acc)
                      | d :: r4 =>
                          if d = rbrace then some (JsonVal.obj ((k, v) :: acc).reverse, r4)
                          else none
                      | [] => none
                  | none => none
              | _ => none
          | none => none
        else none

/-- Fuel-bounded parse of the items of a JSON array (position: just after
the opening bracket or a separating comma, whitespace skipped). -/
def parseArrItems : Nat → List Char → List JsonVal → Option (JsonVal × List Char)
  | 0, _, _ => none
  | fuel+1, input, acc =>
    match input with
    | ']' :: rest => some (JsonVal.arr acc.reverse, rest)
    | _ =>
        match parseVal fuel input with
        | some (v, r1) =>
            match skipWs r1 with
            | ',' :: r2 => parseArrItems fuel (skipWs r2) (v :: acc)
            | ']' :: r2 => some (JsonVal.arr ((v :: acc).reverse), r2)
            | _ => none
        | none => none

end

/-- Parse a whole JSON document: one value followed only by whitespace,
as `JSON.parse` requires.  Fuel `2 * length + 2` dominates the combined
nesting depth and member count of any input. -/
def parseJson (s : String) : Option JsonVal :=
  match parseVal (2 * s.length + 2) s.data with
  | some (v, rest) => if skipWs rest = [] then some v else none
  | none => none

/-- Modelled from the spec: the postgresql row normalizer of the missing
`ExplainResultParser.parseExplainResult` — a row with a single key (the
`QUERY PLAN` wrapper) whose value is a structured object is replaced by
that object; any other shape passes through. -/
def pgExplainRow (row : ExplainRow) : ExplainRow :=
  match row with
  | [(_, JsonVal.obj o)] => o
  | _ => row

/-- Modelled from the spec: the mysql row normalizer of the missing
`ExplainResultParser.parseExplainResult` — a row with a single key whose
value is a JSON-encoded string is replaced by the parsed object; when
parsing fails, or the row is already flat key/value columns, the row
passes through unchanged. -/
def mysqlExplainRow (row : ExplainRow) : ExplainRow :=
  match row with
  | [(k, JsonVal.str s)] =>
      match parseJson s with
      | some (JsonVal.obj o) => o
      | _ => [(k, JsonVal.str s)]
  | _ => row

/-- Modelled from the spec: `ExplainResultParser.parseExplainResult(type, rows)`
(source file missing).  postgresql strips the single-key wrapper, mysql
parses JSON-encoded strings with a pass-through fallback, sqlite and
snowflake pass rows through unchanged; any other tag throws. -/
def parseExplainResult (dbType : String) (rows : List ExplainRow) : Except String (List ExplainRow) :=
  match dbType with
  | "postgresql" => .ok (rows.map pgExplainRow)
  | "mysql" => .ok (rows.map mysqlExplainRow)
  | "sqlite" => .ok rows
  | "snowflake" => .ok rows
  | _ => .error "Unsupported database type for EXPLAIN parsing"

/-- An HTTP failure as seen by the Reddit client's response interceptor:
the response status and the optional `retry-after` header (in seconds). -/
structure HttpError where
  status : Nat
  retryAfter : Option Nat

/-- Outcome of one HTTP request attempt. -/
inductive HttpOutcome (α : Type) where
  | success (value : α)
  | failure (e : HttpError)

/-- The retry delay in milliseconds computed by the interceptor in
`RedditClient`'s constructor: `retry-after` seconds times 1000 when the
header is present, otherwise 60000. -/
def retryDelayMs : Option Nat → Nat
  | some s => s * 1000
  | none => 60000

/-- The interceptor's decision on a failed attempt, given the request's
`_retry` flag: a 429 on a not-yet-retried request yields `some delay`
(sleep then retry); anything else yields `none` (reject). -/
def handle429 (retried : Bool) (e : HttpError) : Option Nat :=
  if e.status = 429 ∧ retried = false then some (retryDelayMs e.retryAfter) else none

/-- One request through the response interceptor of `RedditClient`:
`first` is the outcome of the initial attempt and `retryAttempt` the
outcome of the single re-issued request (which re-enters the interceptor
with `_retry = true`, so any second failure is rejected unchanged).
Returns the list of delays slept (in milliseconds) and the final outcome. -/
def requestWithRetry {α : Type} (first retryAttempt : HttpOutcome α) :
    List Nat × HttpOutcome α :=
  match first with
  | .success v => ([], .success v)
  | .failure e =>
      match handle429 false e with
      | some delay =>
          match retryAttempt with
          | .success v => ([delay], .success v)
          | .failure e2 =>
              match handle429 true e2 with
              | some d2 => ([delay, d2], retryAttempt)
              | none => ([delay], .failure e2)
      | none => ([], .failure e)

/-- One MCP content block (the tool layer only ever emits text blocks). -/
structure MCPContent where
  type : String
  text : String
deriving DecidableEq

/-- An MCP tool result: content blocks plus the error flag. -/
structure MCPResult where
  content : List MCPContent
  isError : Bool
deriving DecidableEq

/-- `handleToolCall` from `src/tools/index.ts`: when the Reddit connection
is not established, a fixed configuration error result; otherwise the tool
is looked up by name (a missing tool throws `Unknown tool: <name>`), its
handler runs, and any thrown message is converted into an
`isError: true` result whose single text block is `Error: <message>`. -/
def handleToolCall (Args : Type) (tools : List (String × (Args → Except String MCPResult)))
    (connected : Bool) (name : String) (args : Args) : MCPResult :=
  if connected = false then
    ⟨[⟨"text", "Error: Reddit connection not established. Please check your configuration (REDDIT_CLIENT_ID, REDDIT_CLIENT_SECRET)."⟩], true⟩
  else
    match tools.lookup name with
    | none => ⟨[⟨"text", "Error: " ++ ("Unknown tool: " ++ name)⟩], true⟩
    | some handler =>
        match handler args with
        | .ok r => r
        | .error msg => ⟨[⟨"text", "Error: " ++ msg⟩], true⟩

/-- Observable console effects of the CLI layer.  `exitProc` models a
`process.exit(code)` call (emitted by `CommandManager`, never by
`handleCliCommands`). -/
inductive CliEffect where
  | log (message : String)
  | exitProc (code : Nat)
deriving DecidableEq

/-- Whether a CLI effect is a plain console log. -/
def CliEffect.isLog : CliEffect → Bool
  | .log _ => true
  | .exitProc _ => false

/-- The version banner printed by `handleCliCommands`: the build-time
injected `__PACKAGE_VERSION__` when defined, else the `1.0.0` fallback. -/
def versionText (injectedVersion : Option String) : String :=
  "reddit-mcp v" ++ injectedVersion.getD "1.0.0"

/-- The help text printed by `handleCliCommands` (`src/cli.ts`). -/
def helpText : String :=
  "\nReddit MCP Server\n\nUsage: reddit-mcp [options]\n\nOptions:\n  --version, -v    Show version number\n  --help, -h       Show help message\n\nEnvironment Variables:\n  REDDIT_CLIENT_ID        Your Reddit app Client ID (required)\n  REDDIT_CLIENT_SECRET    Your Reddit app Client Secret (required)\n  REDDIT_USER_AGENT       User-Agent string (required)\n  REDDIT_USERNAME         Your Reddit username (optional)\n  REDDIT_PASSWORD         Your Reddit password (optional)\n\nFor more information, visit: https://github.com/nitaiaharoni1/reddit-mcp\n    "

/-- `handleCliCommands(args)` from `src/cli.ts`: logs the version banner
and returns `true` for a first argument of `--version`/`-v`, logs the help
text and returns `true` for `--help`/`-h`, and otherwise returns `false`;
the effect trace records every console interaction. -/
def handleCliCommands (injectedVersion : Option String) (args : List String) :
    List CliEffect × Bool :=
  if 0 < args.length ∧ (args.head? = some "--version" ∨ args.head? = some "-v") then
    ([CliEffect.log (versionText injectedVersion)], true)
  else if 0 < args.length ∧ (args.head? = some "--help" ∨ args.head? = some "-h") then
    ([CliEffect.log helpText], true)
  else
    ([], false)

/-- The listing-limit clamp `Math.min(args.limit || 25, 100)` shared
verbatim by the listing tool handlers (`src/tools/posts.ts:23`,
`src/tools/frontpage.ts:21`, `src/tools/subreddits.ts:23` and its user
listing handlers, `src/tools/discovery.ts:18`, and the search handlers).
`none` models an omitted argument and `some 0` the falsy number 0. -/
def resolveLimit (argLimit : Option Int) : Int :=
  min (match argLimit with
       | none => 25
       | some l => if l = 0 then 25 else l) 100

/-- Count of a character in the doubled list: occurrences of the quote are
doubled, all other characters keep their count. -/
theorem count_doubleChar (q : Char) (l : List Char) (c : Char) :
    (doubleChar q l).count c = if c = q then 2 * l.count c else l.count c := by
  induction l with
  | nil => simp [doubleChar]
  | cons a rest ih =>
    by_cases haq : a = q
    · subst haq
      simp only [doubleChar, if_pos rfl]
      by_cases hcq : c = a
      · subst hcq
        simp [List.count_cons, ih, Nat.mul_add]
      · simp [List.count_cons, hcq, ih]
    · simp only [doubleChar, if_neg haq]
      by_cases hcq : c = q
      · subst hcq
        simp [List.count_cons, ih, Ne.symm haq]
      · simp [List.count_cons, ih, hcq]

/-- Claim C1: for every supported database type and identifier `x`,
`escapeIdentifier` wraps `x` in the dialect's quote character — backtick
for mysql, double-quote for postgresql, sqlite and snowflake — and the
doubling transform doubles exactly the embedded occurrences of that same
quote character, leaving every other character's count unchanged. -/
theorem escapeIdentifier_wraps_and_doubles (x : String) (q : Char) (l : List Char) (c : Char) :
    escapeIdentifier "postgresql" x = .ok ⟨'"' :: (doubleChar '"' x.data ++ ['"'])⟩
  ∧ escapeIdentifier "sqlite" x = .ok ⟨'"' :: (doubleChar '"' x.data ++ ['"'])⟩
  ∧ escapeIdentifier "snowflake" x = .ok ⟨'"' :: (doubleChar '"' x.data ++ ['"'])⟩
  ∧ escapeIdentifier "mysql" x = .ok ⟨'`' :: (doubleChar '`' x.data ++ ['`'])⟩
  ∧ (doubleChar q l).count c = (if c = q then 2 * l.count c else l.count c) :=
  ⟨rfl, rfl, rfl, rfl, count_doubleChar q l c⟩

/-- Claim C2: for every database type tag outside the closed enumeration,
every builder and parser entry point fails with its function-specific
"Unsupported database type for …" message (the two query builders that
delegate identifier escaping surface the escaping message); no entry
point falls back to a default dialect. -/
theorem unsupportedType_errors (t q tbl col x : String) (a : Bool) (lim i : Nat)
    (rows : List ExplainRow)
    (h : t ∉ (["postgresql", "mysql", "sqlite", "snowflake"] : List String)) :
    buildExplainQuery t q a = .error "Unsupported database type for EXPLAIN"
  ∧ escapeIdentifier t x = .error "Unsupported database type for identifier escaping"
  ∧ buildColumnStatsQuery t tbl col = .error "Unsupported database type for identifier escaping"
  ∧ buildMostCommonValuesQuery t tbl col lim = .error "Unsupported database type for identifier escaping"
  ∧ buildTableFilter t tbl i = .error "Unsupported database type for table filter"
  ∧ parseExplainResult t rows = .error "Unsupported database type for EXPLAIN parsing" := by
  simp only [List.mem_cons, List.not_mem_nil, or_false, not_or] at h
  obtain ⟨h1, h2, h3, h4⟩ := h
  have hesc : escapeIdentifier t x = .error "Unsupported database type for identifier escaping" := by
    rw [escapeIdentifier.eq_def]
    split <;> simp_all
  have hesc2 : escapeIdentifier t tbl = .error "Unsupported database type for identifier escaping" := by
    rw [escapeIdentifier.eq_def]
    split <;> simp_all
  refine ⟨?_, hesc, ?_, ?_, ?_, ?_⟩
  · rw [buildExplainQuery.eq_def]; split <;> simp_all
  · rw [buildColumnStatsQuery]; rw [hesc2]; rfl
  · rw [buildMostCommonValuesQuery]; rw [hesc2]; rfl
  · rw [buildTableFilter.eq_def]; split <;> simp_all
  · rw [parseExplainResult.eq_def]; split <;> simp_all

/-- Witness for claim C2 at the tag `unsupported` used by the unit tests. -/
theorem unsupportedType_errors_witness :
    ("unsupported" : String) ∉ (["postgresql", "mysql", "sqlite", "snowflake"] : List String)
  ∧ buildExplainQuery "unsupported" "SELECT 1" false = .error "Unsupported database type for EXPLAIN"
  ∧ escapeIdentifier "unsupported" "id" = .error "Unsupported database type for identifier escaping"
  ∧ buildColumnStatsQuery "unsupported" "t" "c" = .error "Unsupported database type for identifier escaping"
  ∧ buildMostCommonValuesQuery "unsupported" "t" "c" 5 = .error "Unsupported database type for identifier escaping"
  ∧ buildTableFilter "unsupported" "t" 2 = .error "Unsupported database type for table filter"
  ∧ parseExplainResult "unsupported" [] = .error "Unsupported database type for EXPLAIN parsing" :=
  ⟨by decide, unsupportedType_errors "unsupported" "SELECT 1" "t" "c" "id" false 5 2 [] (by decide)⟩

/-- Claim C3: for every supported database type, `parseExplainResult`
succeeds and returns one plain key-value object per input row (the output
type is a list of plain rows and its length equals the input length); the
postgresql case strips the single-key wrapper rather than nesting it. -/
theorem parseExplainResult_preserves_length (rows : List ExplainRow) (k : String)
    (o : List (String × JsonVal)) :
    (∃ out, parseExplainResult "postgresql" rows = .ok out ∧ out.length = rows.length)
  ∧ (∃ out, parseExplainResult "mysql" rows = .ok out ∧ out.length = rows.length)
  ∧ (∃ out, parseExplainResult "sqlite" rows = .ok out ∧ out.length = rows.length)
  ∧ (∃ out, parseExplainResult "snowflake" rows = .ok out ∧ out.length = rows.length)
  ∧ parseExplainResult "postgresql" [[(k, JsonVal.obj o)]] = .ok [o] :=
  ⟨⟨rows.map pgExplainRow, rfl, by simp⟩, ⟨rows.map mysqlExplainRow, rfl, by simp⟩,
   ⟨rows, rfl, rfl⟩, ⟨rows, rfl, rfl⟩, rfl⟩

/-- Claim C4: for type mysql, each row with a single key whose value is a
string that parses as a JSON object is mapped to the parsed object; when
parsing fails, or the row already consists of flat key/value columns
(more or fewer than one column), the row passes through unchanged. -/
theorem parseExplainResult_mysql_fallback :
    (∀ rows : List ExplainRow, parseExplainResult "mysql" rows = .ok (rows.map mysqlExplainRow))
  ∧ (∀ (k s : String) (o : List (String × JsonVal)), parseJson s = some (JsonVal.obj o) →
        mysqlExplainRow [(k, JsonVal.str s)] = o)
  ∧ (∀ (k s : String), parseJson s = none →
        mysqlExplainRow [(k, JsonVal.str s)] = [(k, JsonVal.str s)])
  ∧ (∀ row : ExplainRow, row.length ≠ 1 → mysqlExplainRow row = row) := by
  refine ⟨fun rows => rfl, ?_, ?_, ?_⟩
  · intro k s o h
    simp [mysqlExplainRow, h]
  · intro k s h
    simp [mysqlExplainRow, h]
  · intro row h
    rw [mysqlExplainRow.eq_def]
    split
    · simp_all
    · rfl

/-- Witness for claim C4: the unit-test fixtures — a JSON-encoded
single-key row is parsed, a non-JSON value and a flat multi-column row
pass through unchanged. -/
theorem parseExplainResult_mysql_fallback_witness :
    mysqlExplainRow [("EXPLAIN", JsonVal.str "\x7b\"x\":1\x7d")] = [("x", JsonVal.num 1)]
  ∧ mysqlExplainRow [("id", JsonVal.str "not json")] = [("id", JsonVal.str "not json")]
  ∧ mysqlExplainRow [("id", JsonVal.num 1), ("table", JsonVal.str "t")] =
      [("id", JsonVal.num 1), ("table", JsonVal.str "t")] :=
  ⟨parseExplainResult_mysql_fallback.2.1 "EXPLAIN" "\x7b\"x\":1\x7d" [("x", JsonVal.num 1)] rfl,
   parseExplainResult_mysql_fallback.2.2.1 "id" "not json" rfl,
   parseExplainResult_mysql_fallback.2.2.2 [("id", JsonVal.num 1), ("table", JsonVal.str "t")]
     (by decide)⟩

/-- Claim C5: for every query string `q`, the sqlite EXPLAIN query is the
same with and without the analyze flag, namely `EXPLAIN QUERY PLAN ` ++ `q`. -/
theorem buildExplainQuery_sqlite_analyze_noop (q : String) :
    buildExplainQuery "sqlite" q true = buildExplainQuery "sqlite" q false
  ∧ buildExplainQuery "sqlite" q true = .ok ("EXPLAIN QUERY PLAN " ++ q) := ⟨rfl, rfl⟩

/-- Claim C6: `buildTableFilter` produces `table_name = $<paramIndex>` for
postgresql (with `$1` at the TypeScript default index 1), `table_name = ?`
for mysql and snowflake with the index ignored, and `name = ?` for
sqlite, for every table name and every index. -/
theorem buildTableFilter_dialect_placeholders (tableName : String) (paramIndex : Nat) :
    buildTableFilter "postgresql" tableName paramIndex = .ok ("table_name = $" ++ toString paramIndex)
  ∧ buildTableFilter "postgresql" tableName 1 = .ok "table_name = $1"
  ∧ buildTableFilter "mysql" tableName paramIndex = .ok "table_name = ?"
  ∧ buildTableFilter "snowflake" tableName paramIndex = .ok "table_name = ?"
  ∧ buildTableFilter "sqlite" tableName paramIndex = .ok "name = ?" :=
  ⟨rfl, rfl, rfl, rfl, rfl⟩

/-- Claim C7: a 429 response triggers exactly one delayed retry — the
delay is `retry-after` seconds times 1000 milliseconds when the header is
present and 60000 milliseconds otherwise — and the outcome of the retried
request (in particular a second 429 failure) is returned to the caller
unchanged, with no further retry. -/
theorem redditClient_429_single_retry (α : Type) (h : Option Nat) (s : Nat)
    (r : HttpOutcome α) (e2 : HttpError) :
    requestWithRetry (HttpOutcome.failure ⟨429, h⟩) r = ([retryDelayMs h], r)
  ∧ retryDelayMs (some s) = s * 1000
  ∧ retryDelayMs none = 60000
  ∧ requestWithRetry (HttpOutcome.failure ⟨429, h⟩) ((HttpOutcome.failure e2 : HttpOutcome α)) =
      ([retryDelayMs h], (HttpOutcome.failure e2 : HttpOutcome α)) := by
  refine ⟨?_, rfl, rfl, ?_⟩
  · cases r <;> simp [requestWithRetry, handle429]
  · simp [requestWithRetry, handle429]

/-- Claim C8: whenever a tool handler throws — including the lookup
failure for an unknown tool name, which throws `Unknown tool: <name>` —
`handleToolCall` returns a result with `isError: true` and a single text
content block `Error: <message>`, which contains the original message as
a substring; no error is swallowed. -/
theorem handleToolCall_surfaces_errors (Args : Type)
    (tools : List (String × (Args → Except String MCPResult)))
    (name msg : String) (args : Args)
    (h : (tools.lookup name = none ∧ msg = "Unknown tool: " ++ name)
       ∨ (∃ f, tools.lookup name = some f ∧ f args = Except.error msg)) :
    handleToolCall Args tools true name args = ⟨[⟨"text", "Error: " ++ msg⟩], true⟩
  ∧ (∃ pre suf, "Error: " ++ msg = pre ++ msg ++ suf) := by
  constructor
  · rcases h with ⟨hn, hm⟩ | ⟨f, hf, he⟩
    · subst hm; simp [handleToolCall, hn]
    · simp [handleToolCall, hf, he]
  · exact ⟨"Error: ", "", by simp⟩

/-- Witness for claim C8: calling an unknown tool name on an empty tool
registry yields the `Unknown tool` error result. -/
theorem handleToolCall_surfaces_errors_witness :
    handleToolCall Unit [] true "nope" () =
      ⟨[⟨"text", "Error: " ++ "Unknown tool: nope"⟩], true⟩
  ∧ (∃ pre suf, "Error: " ++ "Unknown tool: nope" =
        pre ++ "Unknown tool: nope" ++ suf) :=
  handleToolCall_surfaces_errors Unit [] "nope" "Unknown tool: nope" () (Or.inl ⟨rfl, rfl⟩)

/-- Claim C9: `handleCliCommands` returns the handled flag `true` exactly
when the first argument is one of `--version`, `-v`, `--help`, `-h`, and
its effect trace consists of console logs only — it never emits a
process-exit effect. -/
theorem handleCliCommands_handled_flag (v : Option String) (args : List String) :
    ((handleCliCommands v args).2 = true ↔
      args.head? = some "--version" ∨ args.head? = some "-v" ∨
      args.head? = some "--help" ∨ args.head? = some "-h")
  ∧ (handleCliCommands v args).1.all CliEffect.isLog = true := by
  constructor
  · rcases args with _ | ⟨a, rest⟩
    · simp [handleCliCommands]
    · simp only [handleCliCommands]
      split_ifs with h1 h2 <;> simp_all <;> tauto
  · rcases args with _ | ⟨a, rest⟩
    · rfl
    · simp only [handleCliCommands]
      split_ifs <;> rfl

/-- Claim C10: the limit passed to the Reddit client by every listing
handler is `min(limit, 100)` for a provided truthy argument and 25 when
the argument is omitted or falsy, so the requested page size never
exceeds 100. -/
theorem listing_limit_clamped (l : Int) (o : Option Int) (h : l ≠ 0) :
    resolveLimit (some l) = min l 100
  ∧ resolveLimit none = 25
  ∧ resolveLimit (some 0) = 25
  ∧ resolveLimit o ≤ 100 := by
  refine ⟨?_, by decide, by decide, min_le_right _ _⟩
  simp [resolveLimit, h]

/-- Witness for claim C10 at the concrete provided limit 50. -/
theorem listing_limit_clamped_witness :
    (50 : Int) ≠ 0 ∧ resolveLimit (some 50) = min 50 100 :=
  ⟨by decide, (listing_limit_clamped 50 none (by decide)).1⟩
